import Mathlib

/-!
Shallow embedding of the SkillSwap backend (Node/Express/Mongoose) for
specification checking.  The definitions below are translated from:

* `src/backend/src/models/SwapRequest.js` — the `SwapRequest` schema with its
  instance methods (`accept`, `reject`, `complete`, `cancel`, `addFeedback`)
  and virtuals (`isFeedbackComplete`), followed in the same file by the
  `AdminMessage` schema with its virtuals (`isExpired`, `shouldShow`) and
  statics (`getActiveMessagesForUser`).
* `src/backend/src/routes/admin.js` — the swaps router (`POST /api/swaps`,
  `PUT /:id/accept`, `PUT /:id/reject`, `PUT /:id/complete`, `DELETE /:id`)
  and the admin router (`PUT /api/admin/users/:id/ban`).
* the feedback router (`POST /api/feedback/:swapId`).
* `src/backend/src/routes/users.js` — the base public-listing query and the
  skill-match count query (`GET /api/users/:id/skill-matches`).

MongoDB ObjectIds are modelled as `Nat`, dates as `Int` (milliseconds since
epoch; only their order matters), and Mongo documents as Lean structures.
-/

/-- Status enum of the `SwapRequest` schema
(`enum: ['pending', 'accepted', 'rejected', 'completed', 'cancelled']`). -/
inductive SwapStatus where
  | pending
  | accepted
  | rejected
  | completed
  | cancelled
deriving DecidableEq, Repr

/-- The `feedback` sub-document of a `SwapRequest`: two independent
rating/comment slots, each `null` until submitted. -/
structure SwapFeedback where
  fromUserRating : Option Nat
  fromUserComment : Option String
  toUserRating : Option Nat
  toUserComment : Option String
deriving DecidableEq, Repr

/-- A `SwapRequest` document. -/
structure Swap where
  id : Nat
  fromUserId : Nat
  toUserId : Nat
  skillOffered : String
  skillWanted : String
  message : String
  status : SwapStatus
  completedAt : Option Int
  feedback : SwapFeedback
deriving DecidableEq, Repr

/-- A freshly created `SwapRequest` with the schema defaults:
`status` defaults to `'pending'`, `completedAt` to `null`, and all four
feedback fields to `null` (`SwapRequest.create` in the POST /api/swaps
handler passes only the five explicit fields). -/
def mkPendingSwap (id fromU toU : Nat) (so sw msg : String) : Swap :=
  { id := id, fromUserId := fromU, toUserId := toU, skillOffered := so,
    skillWanted := sw, message := msg, status := .pending, completedAt := none,
    feedback := ⟨none, none, none, none⟩ }

/-- `swapRequestSchema.methods.accept`: sets status and saves. -/
def Swap.accept (s : Swap) : Swap := { s with status := .accepted }

/-- `swapRequestSchema.methods.reject`. -/
def Swap.reject (s : Swap) : Swap := { s with status := .rejected }

/-- `swapRequestSchema.methods.complete`: sets status and
`completedAt = new Date()`. -/
def Swap.complete (s : Swap) (now : Int) : Swap :=
  { s with status := .completed, completedAt := some now }

/-- `swapRequestSchema.methods.cancel`. -/
def Swap.cancel (s : Swap) : Swap := { s with status := .cancelled }

/-- `swapRequestSchema.methods.addFeedback(userId, rating, comment)`:
writes the slot matching the caller's side; a non-participant id writes
nothing. -/
def Swap.addFeedback (s : Swap) (userId rating : Nat) (comment : Option String) :
    Swap :=
  if s.fromUserId = userId then
    { s with feedback := { s.feedback with fromUserRating := some rating,
                                           fromUserComment := comment } }
  else if s.toUserId = userId then
    { s with feedback := { s.feedback with toUserRating := some rating,
                                           toUserComment := comment } }
  else s

/-- JavaScript truthiness of a nullable Mongo number field
(`null` and `0` are falsy). -/
def truthyNum : Option Nat → Bool
  | none => false
  | some n => n ≠ 0

/-- Virtual `isFeedbackComplete`:
`this.feedback.fromUserRating && this.feedback.toUserRating`
(JS truthiness of the two nullable ratings). -/
def Swap.isFeedbackComplete (s : Swap) : Bool :=
  truthyNum s.feedback.fromUserRating && truthyNum s.feedback.toUserRating

/-- Error responses the routers return: 404 not-found, 403 authorization
failure, 400 validation / state-conflict / duplicate failure. -/
inductive ApiErr where
  | notFound (msg : String)
  | forbidden (msg : String)
  | badRequest (msg : String)
deriving DecidableEq, Repr

/-- A persisted `Notification` row (the fields relevant here). -/
inductive NotifType where
  | swap_request
  | swap_accepted
  | swap_rejected
  | swap_completed
  | admin_message
  | feedback_received
deriving DecidableEq, Repr

structure Notif where
  userId : Nat
  type : NotifType
  relatedId : Nat
deriving DecidableEq, Repr

/-- `Notification.createSwapAcceptedNotification(userId, swapRequestId)`. -/
def createSwapAcceptedNotif (userId swapId : Nat) : Notif :=
  ⟨userId, .swap_accepted, swapId⟩

/-- `Notification.createSwapRejectedNotification(userId, swapRequestId)`. -/
def createSwapRejectedNotif (userId swapId : Nat) : Notif :=
  ⟨userId, .swap_rejected, swapId⟩

/-- `Notification.createSwapCompletedNotification(userId, swapRequestId)`. -/
def createSwapCompletedNotif (userId swapId : Nat) : Notif :=
  ⟨userId, .swap_completed, swapId⟩

/-- `Notification.createFeedbackReceivedNotification(userId, swapRequestId)`. -/
def createFeedbackReceivedNotif (userId swapId : Nat) : Notif :=
  ⟨userId, .feedback_received, swapId⟩

/-- The four lifecycle routes on an existing swap:
`PUT /:id/accept`, `PUT /:id/reject`, `PUT /:id/complete`, `DELETE /:id`. -/
inductive SwapAction where
  | acceptA
  | rejectA
  | completeA
  | cancelA
deriving DecidableEq, Repr

/-- Handler body of `PUT /api/swaps/:id/accept` once the swap has been
loaded: recipient check (403), pending check (400), then
`swapRequest.accept()` and a swap-accepted notification for the sender. -/
def acceptHandler (s : Swap) (callerId : Nat) :
    Except ApiErr (Swap × List Notif) :=
  if s.toUserId ≠ callerId then
    .error (.forbidden "Only the recipient can accept swap requests")
  else if s.status ≠ .pending then
    .error (.badRequest "Can only accept pending swap requests")
  else
    .ok (s.accept, [createSwapAcceptedNotif s.fromUserId s.id])

/-- Handler body of `PUT /api/swaps/:id/reject`. -/
def rejectHandler (s : Swap) (callerId : Nat) :
    Except ApiErr (Swap × List Notif) :=
  if s.toUserId ≠ callerId then
    .error (.forbidden "Only the recipient can reject swap requests")
  else if s.status ≠ .pending then
    .error (.badRequest "Can only reject pending swap requests")
  else
    .ok (s.reject, [createSwapRejectedNotif s.fromUserId s.id])

/-- Handler body of `PUT /api/swaps/:id/complete`: participant check (403),
accepted check (400), then `swapRequest.complete()` and swap-completed
notifications for both users. -/
def completeHandler (s : Swap) (callerId : Nat) (now : Int) :
    Except ApiErr (Swap × List Notif) :=
  if s.fromUserId ≠ callerId ∧ s.toUserId ≠ callerId then
    .error (.forbidden "Not authorized to complete this swap")
  else if s.status ≠ .accepted then
    .error (.badRequest "Can only complete accepted swap requests")
  else
    .ok (s.complete now,
         [createSwapCompletedNotif s.fromUserId s.id,
          createSwapCompletedNotif s.toUserId s.id])

/-- Handler body of `DELETE /api/swaps/:id`: sender check (403), pending
check (400), then `swapRequest.cancel()` (no notification is created). -/
def cancelHandler (s : Swap) (callerId : Nat) :
    Except ApiErr (Swap × List Notif) :=
  if s.fromUserId ≠ callerId then
    .error (.forbidden "Only the sender can cancel swap requests")
  else if s.status ≠ .pending then
    .error (.badRequest "Can only cancel pending swap requests")
  else
    .ok (s.cancel, [])

/-- Dispatch a lifecycle call on a loaded swap. -/
def runAction (a : SwapAction) (s : Swap) (callerId : Nat) (now : Int) :
    Except ApiErr (Swap × List Notif) :=
  match a with
  | .acceptA => acceptHandler s callerId
  | .rejectA => rejectHandler s callerId
  | .completeA => completeHandler s callerId now
  | .cancelA => cancelHandler s callerId

/-- `SwapRequest.findById` over a list-modelled collection. -/
def findSwapById (db : List Swap) (id : Nat) : Option Swap :=
  db.find? (fun s => s.id = id)

/-- Persist an updated document over the list-modelled collection. -/
def saveSwap (db : List Swap) (s' : Swap) : List Swap :=
  db.map (fun s => if s.id = s'.id then s' else s)

/-- A full lifecycle call against the stored collection: load by id
(404 if absent), run the handler, persist the result only on success. -/
def dbRunAction (db : List Swap) (id : Nat) (a : SwapAction) (callerId : Nat)
    (now : Int) : List Swap × Except ApiErr (Swap × List Notif) :=
  match findSwapById db id with
  | none => (db, .error (.notFound "Swap request not found"))
  | some s =>
    match runAction a s callerId now with
    | .error e => (db, .error e)
    | .ok (s', ns) => (saveSwap db s', .ok (s', ns))

/-- The §4.1 transition table of the specification (spec-side definition,
used to compare the handlers against the table):
accept/reject by the recipient from pending, complete by either participant
from accepted, cancel by the requester from pending. -/
def allowedByTable (a : SwapAction) (s : Swap) (callerId : Nat) : Bool :=
  match a with
  | .acceptA => callerId = s.toUserId && s.status = .pending
  | .rejectA => callerId = s.toUserId && s.status = .pending
  | .completeA =>
      (callerId = s.fromUserId || callerId = s.toUserId) && s.status = .accepted
  | .cancelA => callerId = s.fromUserId && s.status = .pending

/-- Whether an error is an authorization (403) or state-conflict (400)
response, as opposed to a 404. -/
def isAuthOrStateErr : ApiErr → Bool
  | .forbidden _ => true
  | .badRequest _ => true
  | .notFound _ => false

/-- Whether a stored swap is a pending request between `a` and `b` in the
given direction (one disjunct of the duplicate check in `POST /api/swaps`). -/
def pendingBetween (a b : Nat) (s : Swap) : Bool :=
  (s.fromUserId = a && s.toUserId = b && s.status = .pending) ||
  (s.fromUserId = b && s.toUserId = a && s.status = .pending)

/-- Handler body of `POST /api/swaps` after input validation: self-swap
check (400), duplicate-pending check in either direction (400), then
`SwapRequest.create` with default status `pending`. -/
def createSwapHandler (db : List Swap) (newId callerId toUserId : Nat)
    (skillOffered skillWanted message : String) : Except ApiErr Swap :=
  if callerId = toUserId then
    .error (.badRequest "Cannot create swap request with yourself")
  else if db.any (pendingBetween callerId toUserId) then
    .error (.badRequest "A pending swap request already exists between these users")
  else
    .ok (mkPendingSwap newId callerId toUserId skillOffered skillWanted message)

/-- Result of a successful `POST /api/feedback/:swapId` call: the updated
swap, the id of the counterparty whose rating aggregate is updated, the
rating folded into that aggregate, and the notifications created. -/
structure FeedbackResult where
  swap : Swap
  targetUserId : Nat
  ratingApplied : Nat
  notifications : List Notif
deriving DecidableEq, Repr

/-- Handler body of `POST /api/feedback/:swapId` once the swap has been
loaded: validator bound on the rating (1..5, 400), participant check (403),
completed check (400), duplicate-feedback check against `!== null` (400);
on success `addFeedback` writes the caller's slot, the counterparty is the
rating target, and a feedback-received notification is created for the
target exactly when `isFeedbackComplete` holds afterwards. -/
def postFeedbackHandler (s : Swap) (callerId rating : Nat)
    (comment : Option String) : Except ApiErr FeedbackResult :=
  if rating < 1 ∨ 5 < rating then
    .error (.badRequest "Rating must be between 1 and 5")
  else if s.fromUserId ≠ callerId ∧ s.toUserId ≠ callerId then
    .error (.forbidden "Not authorized to provide feedback for this swap")
  else if s.status ≠ .completed then
    .error (.badRequest "Can only provide feedback for completed swaps")
  else
    let isFromUser := s.fromUserId = callerId
    let hasProvidedFeedback :=
      if isFromUser then s.feedback.fromUserRating.isSome
      else s.feedback.toUserRating.isSome
    if hasProvidedFeedback then
      .error (.badRequest "You have already provided feedback for this swap")
    else
      let s' := s.addFeedback callerId rating comment
      let targetUserId := if isFromUser then s.toUserId else s.fromUserId
      let notifications :=
        if s'.isFeedbackComplete then
          [createFeedbackReceivedNotif targetUserId s.id]
        else []
      .ok ⟨s', targetUserId, rating, notifications⟩

/-- A full feedback call against the stored collection: load by id (404),
run the handler, persist the updated swap only on success. -/
def dbPostFeedback (db : List Swap) (id callerId rating : Nat)
    (comment : Option String) : List Swap × Except ApiErr FeedbackResult :=
  match findSwapById db id with
  | none => (db, .error (.notFound "Swap request not found"))
  | some s =>
    match postFeedbackHandler s callerId rating comment with
    | .error e => (db, .error e)
    | .ok r => (saveSwap db r.swap, .ok r)

/-- The rating aggregate stored on a `User` document: running average and
review count. -/
structure UserRatingAgg where
  rating : Rat
  reviewCount : Nat
deriving DecidableEq, Repr

/-- Modelled from the spec: `User.updateRating` — the `User.js` model is not
among the provided sources (only its call site
`await targetUser.updateRating(rating)` in the feedback route is).  Spec
§4.2: recomputes the aggregate as
`newAvg = (oldAvg * oldCount + rating) / (oldCount + 1)` and increments the
count by one. -/
def updateRating (u : UserRatingAgg) (r : Rat) : UserRatingAgg :=
  ⟨(u.rating * (u.reviewCount : Rat) + r) / ((u.reviewCount : Rat) + 1),
   u.reviewCount + 1⟩

/-- Folding a sequence of submitted ratings into an aggregate. -/
def submitRatings (u : UserRatingAgg) (rs : List Rat) : UserRatingAgg :=
  rs.foldl updateRating u

/-- A user who has never been rated (`rating: 0, reviewCount: 0`). -/
def freshUserAgg : UserRatingAgg := ⟨0, 0⟩

/-- A `User` document restricted to the fields the queries here read. -/
structure UserDoc where
  id : Nat
  isPublic : Bool
  isBanned : Bool
  isAdmin : Bool
  skillsOffered : List String
  skillsWanted : List String
deriving DecidableEq, Repr

/-- Mongo `field: { $in: values }` on an array field: matches when the
stored array shares at least one element (exact equality) with `values`. -/
def mongoArrayIn (field vals : List String) : Bool :=
  field.any (fun x => vals.contains x)

/-- The skill-match filter of `GET /api/users/:id/skill-matches`, as the
in-source `countDocuments` query at users.js:180-188:
`_id ≠ u`, `isPublic: true`, `isBanned: false`, and
`skillsOffered ∩ u.skillsWanted ≠ ∅ ∨ skillsWanted ∩ u.skillsOffered ≠ ∅`.
(`User.findSkillMatches` itself lives in the absent `User.js`; spec §4.3
states the same condition, so the returned matches are modelled from the
spec with this filter.) -/
def skillMatchFilter (u v : UserDoc) : Bool :=
  v.id ≠ u.id && v.isPublic && !v.isBanned &&
  (mongoArrayIn v.skillsOffered u.skillsWanted ||
   mongoArrayIn v.skillsWanted u.skillsOffered)

/-- The skill-match query over the stored users. -/
def findSkillMatches (db : List UserDoc) (u : UserDoc) : List UserDoc :=
  db.filter (skillMatchFilter u)

/-- The base query of the public user listing (`GET /api/users`, users.js:33):
`{ isPublic: true, isBanned: false }`. -/
def publiclyListed (u : UserDoc) : Bool :=
  u.isPublic && !u.isBanned

/-- Handler body of `PUT /api/admin/users/:id/ban` once the user has been
loaded: already-banned check (400), admin check (400), then sets
`isBanned = true` and saves. -/
def banHandler (u : UserDoc) : Except ApiErr UserDoc :=
  if u.isBanned then
    .error (.badRequest "User is already banned")
  else if u.isAdmin then
    .error (.badRequest "Cannot ban admin users")
  else
    .ok { u with isBanned := true }

/-- An `AdminMessage` document restricted to the fields read here. -/
structure AdminMsg where
  id : Nat
  isActive : Bool
  isGlobal : Bool
  targetUsers : List Nat
  expiresAt : Option Int
deriving DecidableEq, Repr

/-- Virtual `isExpired`: `false` when `expiresAt` is `null`, otherwise
`new Date() > this.expiresAt`. -/
def AdminMsg.isExpired (m : AdminMsg) (now : Int) : Bool :=
  match m.expiresAt with
  | none => false
  | some e => now > e

/-- Virtual `shouldShow`: `this.isActive && !this.isExpired`. -/
def AdminMsg.shouldShow (m : AdminMsg) (now : Int) : Bool :=
  m.isActive && !(m.isExpired now)

/-- The spec's derived "visible" property, written from its words for
comparison with `AdminMsg.shouldShow`: active AND (no expiry OR expiry
strictly in the future relative to the evaluation time). -/
def specVisible (m : AdminMsg) (now : Int) : Bool :=
  m.isActive &&
  (match m.expiresAt with
   | none => true
   | some e => now < e)

/-- The query object literal of `getActiveMessagesForUser`, exactly as its
key/value pairs appear in the source: `isActive: true`, then an or-key for
the global-or-targeted condition, then a second or-key for the expiry
condition. -/
def getActiveMessagesQueryPairs (userId : Nat) (now : Int) :
    List (String × (AdminMsg → Bool)) :=
  [("isActive", fun m => m.isActive),
   ("$or", fun m => m.isGlobal || m.targetUsers.contains userId),
   ("$or", fun m =>
      match m.expiresAt with
      | none => true
      | some e => now < e)]

/-- JavaScript object-literal semantics for duplicate keys: a later binding
of the same key overwrites the earlier one, so only the last binding per
key survives. -/
def jsObject (ps : List (String × α)) : List (String × α) :=
  ps.foldl (fun acc kv => acc.filter (fun kv2 => kv2.1 ≠ kv.1) ++ [kv]) []

/-- `AdminMessage.getActiveMessagesForUser(userId)`: filter the collection
by the conditions that survive the object literal. -/
def getActiveMessagesForUser (db : List AdminMsg) (userId : Nat) (now : Int) :
    List AdminMsg :=
  db.filter (fun m =>
    (jsObject (getActiveMessagesQueryPairs userId now)).all (fun kv => kv.2 m))

/-- The `SwapRequest` states reachable through the REST surface: a request
created by `POST /api/swaps` (requester distinct from recipient), followed
by any succession of successful lifecycle calls and successful feedback
submissions. -/
inductive ReachableSwap : Swap → Prop where
  | created (id fromU toU : Nat) (so sw msg : String) (h : fromU ≠ toU) :
      ReachableSwap (mkPendingSwap id fromU toU so sw msg)
  | lifecycle (s : Swap) (a : SwapAction) (callerId : Nat) (now : Int)
      (s' : Swap) (ns : List Notif) (hs : ReachableSwap s)
      (hrun : runAction a s callerId now = .ok (s', ns)) :
      ReachableSwap s'
  | feedback (s : Swap) (callerId rating : Nat) (comment : Option String)
      (r : FeedbackResult) (hs : ReachableSwap s)
      (hrun : postFeedbackHandler s callerId rating comment = .ok r) :
      ReachableSwap r.swap

/-- A pending request from user 10 to user 20 (concrete document for
evaluations). -/
def demoPending : Swap := mkPendingSwap 1 10 20 "JavaScript" "Python" "hello"

/-- The same request after acceptance. -/
def demoAccepted : Swap := { demoPending with status := .accepted }

/-- The same request after completion at time 42. -/
def demoCompleted : Swap :=
  { demoPending with status := .completed, completedAt := some 42 }

/-- The completed request after the requester has already submitted
feedback. -/
def demoCompletedFromRated : Swap :=
  { demoCompleted with feedback := ⟨some 5, some "ok", none, none⟩ }

/-- A completed swap whose requester-side feedback slot is already
populated, so the recipient's submission fills the second slot. -/
def c2swap : Swap := { demoCompleted with feedback := ⟨some 5, none, none, none⟩ }

/-- The exact handler result of the recipient submitting rating 4 on
`c2swap`. -/
def c2result : FeedbackResult :=
  ⟨{ c2swap with feedback := ⟨some 5, none, some 4, some "great"⟩ }, 10, 4,
   [createFeedbackReceivedNotif 10 1]⟩

/-- A non-admin user who is already banned. -/
def bannedNonAdmin : UserDoc := ⟨7, true, true, false, [], []⟩

/-- A public, non-banned, non-admin user offering Python and wanting Go. -/
def plainUser : UserDoc := ⟨8, true, false, false, ["Python"], ["Go"]⟩

/-- An admin-flagged user. -/
def adminUser : UserDoc := ⟨9, true, false, true, [], []⟩

/-- A user whose wanted skills intersect `plainUser`'s offered skills. -/
def matchSeeker : UserDoc := ⟨30, true, false, false, ["Go"], ["Python"]⟩

/-- An active message expiring exactly at time 5. -/
def c9msg : AdminMsg := ⟨1, true, false, [], some 5⟩

/-- An active global message without expiry. -/
def c9msgNoExpiry : AdminMsg := ⟨3, true, true, [], none⟩

/-- An active, non-expired message targeted only at user 55. -/
def targetedMsg : AdminMsg := ⟨2, true, false, [55], none⟩

/-- The accept handler succeeds exactly when the spec table allows it. -/
theorem acceptHandler_isOk (s : Swap) (c : Nat) :
    (acceptHandler s c).isOk = allowedByTable .acceptA s c := by
  unfold acceptHandler allowedByTable
  by_cases h1 : s.toUserId = c
  · by_cases h2 : s.status = .pending <;> simp [h1, h2, Except.isOk, Except.toBool]
  · have h1' : ¬ (c = s.toUserId) := fun h => h1 h.symm
    simp [h1, h1', Except.isOk, Except.toBool]

/-- The reject handler succeeds exactly when the spec table allows it. -/
theorem rejectHandler_isOk (s : Swap) (c : Nat) :
    (rejectHandler s c).isOk = allowedByTable .rejectA s c := by
  unfold rejectHandler allowedByTable
  by_cases h1 : s.toUserId = c
  · by_cases h2 : s.status = .pending <;> simp [h1, h2, Except.isOk, Except.toBool]
  · have h1' : ¬ (c = s.toUserId) := fun h => h1 h.symm
    simp [h1, h1', Except.isOk, Except.toBool]

/-- The complete handler succeeds exactly when the spec table allows it. -/
theorem completeHandler_isOk (s : Swap) (c : Nat) (now : Int) :
    (completeHandler s c now).isOk = allowedByTable .completeA s c := by
  unfold completeHandler allowedByTable
  by_cases h1 : s.fromUserId = c
  · by_cases h2 : s.status = .accepted <;> simp [h1, h2, Except.isOk, Except.toBool]
  · have h1' : ¬ (c = s.fromUserId) := fun h => h1 h.symm
    by_cases h3 : s.toUserId = c
    · by_cases h2 : s.status = .accepted <;>
        simp [h1, h1', h3, h2, Except.isOk, Except.toBool]
    · have h3' : ¬ (c = s.toUserId) := fun h => h3 h.symm
      simp [h1, h1', h3, h3', Except.isOk, Except.toBool]

/-- The cancel handler succeeds exactly when the spec table allows it. -/
theorem cancelHandler_isOk (s : Swap) (c : Nat) :
    (cancelHandler s c).isOk = allowedByTable .cancelA s c := by
  unfold cancelHandler allowedByTable
  by_cases h1 : s.fromUserId = c
  · by_cases h2 : s.status = .pending <;> simp [h1, h2, Except.isOk, Except.toBool]
  · have h1' : ¬ (c = s.fromUserId) := fun h => h1 h.symm
    simp [h1, h1', Except.isOk, Except.toBool]

/-- Every lifecycle handler succeeds exactly when the spec table allows it. -/
theorem runAction_isOk (a : SwapAction) (s : Swap) (c : Nat) (now : Int) :
    (runAction a s c now).isOk = allowedByTable a s c := by
  cases a
  · exact acceptHandler_isOk s c
  · exact rejectHandler_isOk s c
  · exact completeHandler_isOk s c now
  · exact cancelHandler_isOk s c

/-- On a loaded swap, every handler failure is a 403 or a 400, never a 404. -/
theorem runAction_error_kind (a : SwapAction) (s : Swap) (c : Nat) (now : Int)
    (e : ApiErr) (he : runAction a s c now = .error e) :
    isAuthOrStateErr e = true := by
  cases a <;>
    simp only [runAction, acceptHandler, rejectHandler, completeHandler,
      cancelHandler] at he <;>
    split_ifs at he <;>
    (cases he ; rfl)

/-- A failed lifecycle call does not change the stored collection. -/
theorem dbRunAction_fail_unchanged (db : List Swap) (id : Nat) (a : SwapAction)
    (c : Nat) (now : Int) (s : Swap) (hfind : findSwapById db id = some s)
    (hfail : (runAction a s c now).isOk = false) :
    (dbRunAction db id a c now).1 = db := by
  unfold dbRunAction
  rw [hfind]
  cases hr : runAction a s c now with
  | error e => simp [hr]
  | ok v => rw [hr] at hfail; simp [Except.isOk, Except.toBool] at hfail

/-- Shape of a successful accept: the saved document is `s.accept` and the
original status was pending. -/
theorem acceptHandler_ok_shape (s : Swap) (c : Nat) (v : Swap × List Notif)
    (h : acceptHandler s c = .ok v) : v.1 = s.accept ∧ s.status = .pending := by
  unfold acceptHandler at h
  split_ifs at h with h1 h2
  · cases h
    exact ⟨rfl, not_not.mp h2⟩

/-- Shape of a successful reject. -/
theorem rejectHandler_ok_shape (s : Swap) (c : Nat) (v : Swap × List Notif)
    (h : rejectHandler s c = .ok v) : v.1 = s.reject ∧ s.status = .pending := by
  unfold rejectHandler at h
  split_ifs at h with h1 h2
  · cases h
    exact ⟨rfl, not_not.mp h2⟩

/-- Shape of a successful complete: the saved document is `s.complete now`
and the original status was accepted. -/
theorem completeHandler_ok_shape (s : Swap) (c : Nat) (now : Int)
    (v : Swap × List Notif) (h : completeHandler s c now = .ok v) :
    v.1 = s.complete now ∧ s.status = .accepted := by
  unfold completeHandler at h
  split_ifs at h with h1 h2
  · cases h
    exact ⟨rfl, not_not.mp h2⟩

/-- Shape of a successful cancel. -/
theorem cancelHandler_ok_shape (s : Swap) (c : Nat) (v : Swap × List Notif)
    (h : cancelHandler s c = .ok v) : v.1 = s.cancel ∧ s.status = .pending := by
  unfold cancelHandler at h
  split_ifs at h with h1 h2
  · cases h
    exact ⟨rfl, not_not.mp h2⟩

/-- Writing a feedback slot never touches the status or the completion
timestamp. -/
theorem addFeedback_preserves (s : Swap) (u rt : Nat) (cm : Option String) :
    (s.addFeedback u rt cm).status = s.status
    ∧ (s.addFeedback u rt cm).completedAt = s.completedAt := by
  unfold Swap.addFeedback
  split_ifs <;> exact ⟨rfl, rfl⟩

/-- Shape of a successful feedback submission: what was written, who the
rating target is, which notifications were created, and the guards that
must have held. -/
theorem postFeedbackHandler_ok (s : Swap) (c rating : Nat) (comment : Option String)
    (r : FeedbackResult) (h : postFeedbackHandler s c rating comment = .ok r) :
    r.swap = s.addFeedback c rating comment
    ∧ r.targetUserId = (if s.fromUserId = c then s.toUserId else s.fromUserId)
    ∧ r.ratingApplied = rating
    ∧ r.notifications =
        (if r.swap.isFeedbackComplete then
          [createFeedbackReceivedNotif r.targetUserId s.id] else [])
    ∧ s.status = .completed
    ∧ (s.fromUserId = c ∨ s.toUserId = c)
    ∧ 1 ≤ rating ∧ rating ≤ 5 := by
  unfold postFeedbackHandler at h
  dsimp only at h
  split_ifs at h <;>
    cases h <;>
    refine ⟨rfl, ?_, rfl, ?_, ?_, ?_, ?_, ?_⟩ <;>
    simp_all <;>
    omega

/-- A failed feedback call does not change the stored collection. -/
theorem dbPostFeedback_fail_unchanged (db : List Swap) (id c rating : Nat)
    (comment : Option String) (s : Swap) (hfind : findSwapById db id = some s)
    (hfail : (postFeedbackHandler s c rating comment).isOk = false) :
    (dbPostFeedback db id c rating comment).1 = db := by
  unfold dbPostFeedback
  rw [hfind]
  cases hr : postFeedbackHandler s c rating comment with
  | error e => simp [hr]
  | ok v => rw [hr] at hfail; simp [Except.isOk, Except.toBool] at hfail

/-- Reachable swaps satisfy the completion-timestamp invariant. -/
theorem reachableSwap_completedAt (s : Swap) (h : ReachableSwap s) :
    s.completedAt.isSome = true ↔ s.status = .completed := by
  induction h with
  | created id f t so sw msg hne => simp [mkPendingSwap]
  | lifecycle s a c now s' ns hs hrun ih =>
    cases a
    · have hsh := acceptHandler_ok_shape s c (s', ns) hrun
      have h1 : s' = s.accept := hsh.1
      rw [h1]
      simp [Swap.accept, ih, hsh.2]
    · have hsh := rejectHandler_ok_shape s c (s', ns) hrun
      have h1 : s' = s.reject := hsh.1
      rw [h1]
      simp [Swap.reject, ih, hsh.2]
    · have hsh := completeHandler_ok_shape s c now (s', ns) hrun
      have h1 : s' = s.complete now := hsh.1
      rw [h1]
      simp [Swap.complete]
    · have hsh := cancelHandler_ok_shape s c (s', ns) hrun
      have h1 : s' = s.cancel := hsh.1
      rw [h1]
      simp [Swap.cancel, ih, hsh.2]
  | feedback s c rating comment r hs hrun ih =>
    have hsh := postFeedbackHandler_ok s c rating comment r hrun
    rw [hsh.1, (addFeedback_preserves s c rating comment).1,
      (addFeedback_preserves s c rating comment).2]
    exact ih

/-- Only pending-status documents satisfy the duplicate-request filter. -/
theorem pendingBetween_status (a b : Nat) (s : Swap)
    (h : pendingBetween a b s = true) : s.status = .pending := by
  simp only [pendingBetween, Bool.or_eq_true, Bool.and_eq_true,
    decide_eq_true_eq] at h
  rcases h with ⟨⟨_, _⟩, h2⟩ | ⟨⟨_, _⟩, h2⟩ <;> exact h2

/-- Folding ratings into an aggregate: the count grows by the number of
submissions and average times count equals the accumulated sum. -/
theorem submitRatings_spec (rs : List Rat) (u : UserRatingAgg) :
    (submitRatings u rs).reviewCount = u.reviewCount + rs.length
    ∧ (submitRatings u rs).rating * ((u.reviewCount + rs.length : Nat) : Rat)
        = u.rating * (u.reviewCount : Rat) + rs.sum := by
  induction rs generalizing u with
  | nil => simp [submitRatings]
  | cons r t ih =>
    have hstep := ih (updateRating u r)
    have hcount : (updateRating u r).reviewCount = u.reviewCount + 1 := rfl
    have hrate : (updateRating u r).rating * ((u.reviewCount : Rat) + 1)
        = u.rating * (u.reviewCount : Rat) + r := by
      unfold updateRating
      have hz : ((u.reviewCount : Rat) + 1) ≠ 0 := by positivity
      field_simp
    constructor
    · show (submitRatings (updateRating u r) t).reviewCount
        = u.reviewCount + (t.length + 1)
      rw [hstep.1, hcount]
      omega
    · show (submitRatings (updateRating u r) t).rating
          * ((u.reviewCount + (t.length + 1) : Nat) : Rat)
        = u.rating * (u.reviewCount : Rat) + (r + t.sum)
      have h2 := hstep.2
      rw [hcount] at h2
      have hc : ((u.reviewCount + 1 + t.length : Nat) : Rat)
          = ((u.reviewCount + (t.length + 1) : Nat) : Rat) := by
        push_cast
        ring
      rw [hc] at h2
      rw [h2]
      push_cast
      rw [hrate]
      ring

/-- From a fresh user, the final aggregate depends only on the multiset of
submitted ratings, not on their order. -/
theorem submitRatings_perm_eq (l l' : List Rat) (hp : l.Perm l') :
    submitRatings freshUserAgg l = submitRatings freshUserAgg l' := by
  have h1 := submitRatings_spec l freshUserAgg
  have h2 := submitRatings_spec l' freshUserAgg
  have hlen : l.length = l'.length := hp.length_eq
  have hsum : l.sum = l'.sum := hp.sum_eq
  rcases Nat.eq_zero_or_pos l.length with hz | hpos
  · have hl : l = [] := List.length_eq_zero.mp hz
    have hl' : l' = [] := List.length_eq_zero.mp (by rw [← hlen]; exact hz)
    rw [hl, hl']
  · have hnz : ((freshUserAgg.reviewCount + l.length : Nat) : Rat) ≠ 0 := by
      have hne : freshUserAgg.reviewCount + l.length ≠ 0 := by
        have : l.length ≠ 0 := Nat.pos_iff_ne_zero.mp hpos
        omega
      exact_mod_cast hne
    have e1 := h1.2
    have e2 := h2.2
    rw [← hlen] at e2
    rw [hsum] at e1
    have hr : (submitRatings freshUserAgg l).rating
        = (submitRatings freshUserAgg l').rating :=
      mul_right_cancel₀ hnz (e1.trans e2.symm)
    have hcnt : (submitRatings freshUserAgg l).reviewCount
        = (submitRatings freshUserAgg l').reviewCount := by
      rw [h1.1, h2.1, hlen]
    calc submitRatings freshUserAgg l
        = ⟨(submitRatings freshUserAgg l).rating,
           (submitRatings freshUserAgg l).reviewCount⟩ := rfl
      _ = ⟨(submitRatings freshUserAgg l').rating,
           (submitRatings freshUserAgg l').reviewCount⟩ := by rw [hr, hcnt]
      _ = submitRatings freshUserAgg l' := rfl

/-- Under JS object semantics the duplicated or-key collapses: only
`isActive` and the expiry condition survive in the effective query. -/
theorem jsObject_activeMessages (userId : Nat) (now : Int) :
    jsObject (getActiveMessagesQueryPairs userId now)
      = [("isActive", fun m => m.isActive),
         ("$or", fun m =>
            match m.expiresAt with
            | none => true
            | some e => decide (now < e))] := by
  rfl

/-- Claim C1: for every swap request and every lifecycle call (accept,
reject, complete, cancel), the call succeeds exactly when the §4.1 table
allows it (accept/reject by the recipient from pending, complete by either
participant from accepted, cancel by the requester from pending); any other
call fails with an authorization or state-conflict error and leaves the
stored request entirely unchanged. -/
theorem C1_swap_lifecycle (a : SwapAction) (s : Swap) (callerId : Nat) (now : Int) :
    ((runAction a s callerId now).isOk = allowedByTable a s callerId)
    ∧ (∀ e, runAction a s callerId now = .error e → isAuthOrStateErr e = true)
    ∧ (∀ db, findSwapById db s.id = some s → allowedByTable a s callerId = false →
        (dbRunAction db s.id a callerId now).1 = db) :=
  ⟨runAction_isOk a s callerId now,
   fun e he => runAction_error_kind a s callerId now e he,
   fun db hfind hnot => dbRunAction_fail_unchanged db s.id a callerId now s hfind
     (by rw [runAction_isOk]; exact hnot)⟩

/-- Witness for C1: the recipient accepting a pending request succeeds; a
non-sender's cancel attempt yields an authorization error and leaves the
collection unchanged. -/
theorem C1_swap_lifecycle_witness :
    (runAction .acceptA demoPending 20 0).isOk = true
    ∧ isAuthOrStateErr (ApiErr.forbidden "Only the sender can cancel swap requests") = true
    ∧ (dbRunAction [demoPending] 1 .cancelA 20 0).1 = [demoPending] := by
  refine ⟨?_, ?_, ?_⟩
  · rw [(C1_swap_lifecycle .acceptA demoPending 20 0).1]
    decide
  · exact (C1_swap_lifecycle .cancelA demoPending 20 0).2.1
      (ApiErr.forbidden "Only the sender can cancel swap requests") (by rfl)
  · exact (C1_swap_lifecycle .cancelA demoPending 20 0).2.2
      [demoPending] (by decide) (by decide)

/-- Counterexample to claim C2: when the recipient's submission populates
the second feedback slot, the handler creates exactly one feedback-received
notification, addressed to the counterparty (user 10); no notification is
created for the submitting participant (user 20), so the notification is
not emitted to both participants. -/
theorem C2_feedback_notification_counterexample :
    postFeedbackHandler c2swap 20 4 (some "great") = .ok c2result
    ∧ c2result.swap.isFeedbackComplete = true
    ∧ c2result.notifications = [createFeedbackReceivedNotif 10 1]
    ∧ c2result.notifications.any (fun n => n.userId = c2swap.toUserId) = false := by
  refine ⟨by rfl, by decide, by decide, by decide⟩

/-- Claim C2 (amended): whenever a feedback submission populates the second
of the two feedback slots of a completed swap, a feedback-received
notification is emitted to the counterparty of the submitter (the
participant whose rating aggregate was updated) only; when the second slot
is still empty no notification is emitted. -/
theorem C2_feedback_notification (s : Swap) (c rating : Nat)
    (comment : Option String) (r : FeedbackResult)
    (h : postFeedbackHandler s c rating comment = .ok r) :
    (r.swap.isFeedbackComplete = true →
      r.notifications = [createFeedbackReceivedNotif r.targetUserId s.id])
    ∧ (r.swap.isFeedbackComplete = false → r.notifications = [])
    ∧ (s.fromUserId = c → r.targetUserId = s.toUserId)
    ∧ (s.fromUserId ≠ c → r.targetUserId = s.fromUserId) := by
  have hsh := postFeedbackHandler_ok s c rating comment r h
  refine ⟨?_, ?_, ?_, ?_⟩
  · intro hc
    rw [hsh.2.2.2.1, if_pos hc]
  · intro hc
    rw [hsh.2.2.2.1, hc]
    simp
  · intro hf
    rw [hsh.2.1, if_pos hf]
  · intro hf
    rw [hsh.2.1, if_neg hf]

/-- Witness for the amended C2: on the concrete completing submission the
notification list is exactly one feedback-received row for the target. -/
theorem C2_feedback_notification_witness :
    c2result.notifications
      = [createFeedbackReceivedNotif c2result.targetUserId c2swap.id] :=
  (C2_feedback_notification c2swap 20 4 (some "great") c2result (by rfl)).1 (by decide)

/-- Claim C3: a feedback submission is rejected when the swap is not
completed, when the caller is not a participant, and when the caller's own
slot is already populated; in every rejected case the stored collection —
in particular the rating and comment from the first submission — is
unchanged. -/
theorem C3_feedback_rejections (s : Swap) (c rating : Nat) (comment : Option String) :
    (s.status ≠ .completed → (postFeedbackHandler s c rating comment).isOk = false)
    ∧ (s.fromUserId ≠ c → s.toUserId ≠ c →
        (postFeedbackHandler s c rating comment).isOk = false)
    ∧ (s.fromUserId = c → s.feedback.fromUserRating.isSome = true →
        (postFeedbackHandler s c rating comment).isOk = false)
    ∧ (s.fromUserId ≠ c → s.toUserId = c → s.feedback.toUserRating.isSome = true →
        (postFeedbackHandler s c rating comment).isOk = false)
    ∧ (∀ db, findSwapById db s.id = some s →
        (postFeedbackHandler s c rating comment).isOk = false →
        (dbPostFeedback db s.id c rating comment).1 = db) := by
  refine ⟨?_, ?_, ?_, ?_, fun db hfind hfail =>
    dbPostFeedback_fail_unchanged db s.id c rating comment s hfind hfail⟩
  · intro hst
    unfold postFeedbackHandler
    dsimp only
    split_ifs <;> simp_all [Except.isOk, Except.toBool]
  · intro hf ht
    unfold postFeedbackHandler
    dsimp only
    split_ifs <;> simp_all [Except.isOk, Except.toBool]
  · intro hf hdup
    unfold postFeedbackHandler
    dsimp only
    split_ifs <;> simp_all [Except.isOk, Except.toBool]
  · intro hf ht hdup
    unfold postFeedbackHandler
    dsimp only
    split_ifs <;> simp_all [Except.isOk, Except.toBool]

/-- Witness for C3: rejection on a non-completed swap, on a non-participant
caller, on a duplicate submission, and collection preservation on the
duplicate. -/
theorem C3_feedback_rejections_witness :
    ((postFeedbackHandler demoAccepted 10 4 none).isOk = false)
    ∧ ((postFeedbackHandler demoCompleted 99 4 none).isOk = false)
    ∧ ((postFeedbackHandler demoCompletedFromRated 10 4 none).isOk = false)
    ∧ ((dbPostFeedback [demoCompletedFromRated] 1 10 4 none).1
        = [demoCompletedFromRated]) := by
  refine ⟨?_, ?_, ?_, ?_⟩
  · exact (C3_feedback_rejections demoAccepted 10 4 none).1 (by decide)
  · exact (C3_feedback_rejections demoCompleted 99 4 none).2.1 (by decide) (by decide)
  · exact (C3_feedback_rejections demoCompletedFromRated 10 4 none).2.2.1
      (by decide) (by decide)
  · exact (C3_feedback_rejections demoCompletedFromRated 10 4 none).2.2.2.2
      [demoCompletedFromRated] (by decide) (by decide)

/-- Claim C4: for a create call with a distinct recipient, creation fails
if and only if a pending request already exists between the same two users
in either direction (only pending-status documents can trigger the
conflict), and on success the new request has status pending. -/
theorem C4_create_pending_conflict (db : List Swap) (newId callerId toUserId : Nat)
    (so sw msg : String) (hne : callerId ≠ toUserId) :
    ((createSwapHandler db newId callerId toUserId so sw msg).isOk = false ↔
      ∃ s ∈ db, pendingBetween callerId toUserId s = true)
    ∧ (∀ s, pendingBetween callerId toUserId s = true → s.status = .pending)
    ∧ (∀ s', createSwapHandler db newId callerId toUserId so sw msg = .ok s' →
        s' = mkPendingSwap newId callerId toUserId so sw msg
        ∧ s'.status = .pending) := by
  refine ⟨?_, fun s hs => pendingBetween_status callerId toUserId s hs, ?_⟩
  · unfold createSwapHandler
    rw [if_neg hne]
    by_cases hany : db.any (pendingBetween callerId toUserId) = true
    · rw [if_pos hany]
      exact ⟨fun _ => List.any_eq_true.mp hany, fun _ => rfl⟩
    · rw [if_neg hany]
      constructor
      · intro hx
        cases hx
      · intro hx
        exact absurd (List.any_eq_true.mpr hx) hany
  · intro s' h
    unfold createSwapHandler at h
    rw [if_neg hne] at h
    split_ifs at h
    cases h
    exact ⟨rfl, rfl⟩

/-- Witness for C4: a reversed-direction pending request blocks creation, a
completed one does not, and a fresh creation is pending. -/
theorem C4_create_pending_conflict_witness :
    ((createSwapHandler [demoPending] 2 20 10 "Python" "JavaScript" "hi").isOk = false)
    ∧ ((createSwapHandler [demoCompleted] 2 20 10 "Python" "JavaScript" "hi").isOk = true)
    ∧ (mkPendingSwap 2 20 10 "Python" "JavaScript" "hi").status = .pending := by
  refine ⟨?_, ?_, ?_⟩
  · exact (C4_create_pending_conflict [demoPending] 2 20 10 "Python" "JavaScript" "hi"
      (by decide)).1.mpr ⟨demoPending, by decide, by decide⟩
  · decide
  · exact ((C4_create_pending_conflict ([] : List Swap) 2 20 10 "Python" "JavaScript" "hi"
      (by decide)).2.2 (mkPendingSwap 2 20 10 "Python" "JavaScript" "hi") (by rfl)).2

/-- Claim C5: for every reachable swap request, completedAt is non-null if
and only if the status is completed; the complete transition sets the
status and the timestamp to the current time, no other lifecycle transition
touches completedAt, and creation leaves it null. -/
theorem C5_completedAt_invariant :
    (∀ s, ReachableSwap s → (s.completedAt.isSome = true ↔ s.status = .completed))
    ∧ (∀ s c now s' ns, runAction .completeA s c now = .ok (s', ns) →
        s'.status = .completed ∧ s'.completedAt = some now)
    ∧ (∀ a s c now s' ns, a ≠ .completeA → runAction a s c now = .ok (s', ns) →
        s'.completedAt = s.completedAt)
    ∧ (∀ id f t so sw msg, (mkPendingSwap id f t so sw msg).completedAt = none) := by
  refine ⟨reachableSwap_completedAt, ?_, ?_, fun _ _ _ _ _ _ => rfl⟩
  · intro s c now s' ns hrun
    have h1 : s' = s.complete now := (completeHandler_ok_shape s c now (s', ns) hrun).1
    rw [h1]
    exact ⟨rfl, rfl⟩
  · intro a s c now s' ns hne hrun
    cases a
    · have h1 : s' = s.accept := (acceptHandler_ok_shape s c (s', ns) hrun).1
      rw [h1]
      rfl
    · have h1 : s' = s.reject := (rejectHandler_ok_shape s c (s', ns) hrun).1
      rw [h1]
      rfl
    · exact absurd rfl hne
    · have h1 : s' = s.cancel := (cancelHandler_ok_shape s c (s', ns) hrun).1
      rw [h1]
      rfl

/-- Witness for C5: the invariant evaluated on a freshly created request,
a concrete completion setting the timestamp, and a concrete accept leaving
it untouched. -/
theorem C5_completedAt_invariant_witness :
    (demoPending.completedAt.isSome = true ↔ demoPending.status = .completed)
    ∧ (demoAccepted.complete 42).status = .completed
    ∧ (demoAccepted.complete 42).completedAt = some 42
    ∧ (demoPending.accept).completedAt = demoPending.completedAt := by
  refine ⟨?_, ?_, ?_, ?_⟩
  · exact C5_completedAt_invariant.1 demoPending
      (ReachableSwap.created 1 10 20 "JavaScript" "Python" "hello" (by decide))
  · exact (C5_completedAt_invariant.2.1 demoAccepted 10 42 (demoAccepted.complete 42)
      [createSwapCompletedNotif 10 1, createSwapCompletedNotif 20 1] (by rfl)).1
  · exact (C5_completedAt_invariant.2.1 demoAccepted 10 42 (demoAccepted.complete 42)
      [createSwapCompletedNotif 10 1, createSwapCompletedNotif 20 1] (by rfl)).2
  · exact C5_completedAt_invariant.2.2.1 .acceptA demoPending 20 0 demoPending.accept
      [createSwapAcceptedNotif 10 1] (by decide) (by rfl)

/-- Claim C6: the rating aggregate is recomputed on each submission as
newAvg = (oldAvg * oldCount + r) / (oldCount + 1) with the count
incremented; a successful feedback submission folds exactly the submitted
rating; consequently the final mean from a fresh user is independent of
submission order, and any ordering of the ratings 5, 3 and 4 yields an
aggregate of 4 with count 3. -/
theorem C6_rating_aggregate :
    (∀ u r, updateRating u r
      = ⟨(u.rating * (u.reviewCount : Rat) + r) / ((u.reviewCount : Rat) + 1),
         u.reviewCount + 1⟩)
    ∧ (∀ s c rating comment r, postFeedbackHandler s c rating comment = .ok r →
        r.ratingApplied = rating)
    ∧ (∀ l l', l.Perm l' →
        submitRatings freshUserAgg l = submitRatings freshUserAgg l')
    ∧ (∀ l, l.Perm [5, 3, 4] →
        submitRatings freshUserAgg l = ⟨4, 3⟩) := by
  refine ⟨fun u r => rfl, ?_, submitRatings_perm_eq, ?_⟩
  · intro s c rating comment r h
    exact (postFeedbackHandler_ok s c rating comment r h).2.2.1
  · intro l hl
    rw [submitRatings_perm_eq l [5, 3, 4] hl]
    simp only [submitRatings, List.foldl, updateRating, freshUserAgg]
    norm_num

/-- Witness for C6: submitting 3, 4 then 5 to a fresh user yields mean 4
and count 3, and the concrete completing submission folds rating 4. -/
theorem C6_rating_aggregate_witness :
    submitRatings freshUserAgg [3, 4, 5] = ⟨4, 3⟩
    ∧ c2result.ratingApplied = 4 := by
  constructor
  · exact C6_rating_aggregate.2.2.2 [3, 4, 5] (by decide)
  · exact C6_rating_aggregate.2.1 c2swap 20 4 (some "great") c2result (by rfl)

/-- Claim C7: the skill-match query returns exactly the stored users other
than the querying user that are public, not banned, and whose offered
skills intersect the querying user's wanted skills or whose wanted skills
intersect the querying user's offered skills, by exact skill-name
equality. -/
theorem C7_skill_match_query (db : List UserDoc) (u v : UserDoc) :
    v ∈ findSkillMatches db u ↔
      (v ∈ db ∧ v.id ≠ u.id ∧ v.isPublic = true ∧ v.isBanned = false ∧
        ((∃ sk, sk ∈ v.skillsOffered ∧ sk ∈ u.skillsWanted) ∨
         (∃ sk, sk ∈ v.skillsWanted ∧ sk ∈ u.skillsOffered))) := by
  simp [findSkillMatches, skillMatchFilter, mongoArrayIn, List.mem_filter,
    List.any_eq_true, and_assoc]

/-- Witness for C7: a visible user offering a wanted skill is returned. -/
theorem C7_skill_match_query_witness :
    plainUser ∈ findSkillMatches [plainUser] matchSeeker :=
  (C7_skill_match_query [plainUser] matchSeeker plainUser).mpr
    ⟨by decide, by decide, by decide, by decide,
     Or.inl ⟨"Python", by decide, by decide⟩⟩

/-- Counterexample to claim C8: a non-admin user who is already banned
cannot be banned — the handler rejects before it ever reaches the admin
check, so banning a non-admin user does not always succeed. -/
theorem C8_ban_counterexample :
    bannedNonAdmin.isAdmin = false
    ∧ (banHandler bannedNonAdmin).isOk = false := by
  exact ⟨rfl, rfl⟩

/-- Claim C8 (amended): banning an admin-flagged user always fails, and
banning a non-admin user who is not already banned succeeds, setting the
banned flag so that the public listing query no longer returns them. -/
theorem C8_ban_rules (u : UserDoc) :
    (u.isAdmin = true → (banHandler u).isOk = false)
    ∧ (u.isAdmin = false → u.isBanned = false →
        banHandler u = .ok { u with isBanned := true }
        ∧ publiclyListed { u with isBanned := true } = false) := by
  constructor
  · intro ha
    unfold banHandler
    split_ifs <;> simp_all [Except.isOk, Except.toBool]
  · intro ha hb
    unfold banHandler
    rw [if_neg (by simp [hb]), if_neg (by simp [ha])]
    exact ⟨rfl, by simp [publiclyListed]⟩

/-- Witness for the amended C8: the admin user's ban fails; the plain
user's ban succeeds and removes them from the public listing. -/
theorem C8_ban_rules_witness :
    ((banHandler adminUser).isOk = false)
    ∧ banHandler plainUser = .ok { plainUser with isBanned := true }
    ∧ publiclyListed { plainUser with isBanned := true } = false := by
  refine ⟨?_, ?_, ?_⟩
  · exact (C8_ban_rules adminUser).1 (by decide)
  · exact ((C8_ban_rules plainUser).2 (by decide) (by decide)).1
  · exact ((C8_ban_rules plainUser).2 (by decide) (by decide)).2

/-- Counterexample to claim C9: a message expiring exactly at the
evaluation time is still shown (`isExpired` uses a strict comparison), yet
its expiry does not lie in the future, so the claimed characterization
fails at the boundary. -/
theorem C9_shouldShow_counterexample :
    c9msg.shouldShow 5 = true ∧ specVisible c9msg 5 = false := by
  exact ⟨rfl, rfl⟩

/-- Claim C9 (amended): shouldShow holds if and only if the message is
active and either has no expiry or its expiry has not yet passed (the
expiry is at or after the evaluation time). -/
theorem C9_shouldShow_iff (m : AdminMsg) (now : Int) :
    m.shouldShow now = true ↔
      (m.isActive = true ∧
        (m.expiresAt = none ∨ ∃ e, m.expiresAt = some e ∧ now ≤ e)) := by
  unfold AdminMsg.shouldShow AdminMsg.isExpired
  cases hm : m.expiresAt with
  | none => simp [hm]
  | some e =>
    simp only [hm, Bool.and_eq_true, Bool.not_eq_true', decide_eq_false_iff_not,
      not_lt, Option.some.injEq]
    constructor
    · rintro ⟨ha, hle⟩
      exact ⟨ha, Or.inr ⟨e, rfl, hle⟩⟩
    · rintro ⟨ha, hx⟩
      rcases hx with hx | ⟨e2, he2, hle⟩
      · cases hx
      · cases he2
        exact ⟨ha, hle⟩

/-- Witness for the amended C9: an active message without expiry is
shown. -/
theorem C9_shouldShow_iff_witness : c9msgNoExpiry.shouldShow 0 = true :=
  (C9_shouldShow_iff c9msgNoExpiry 0).mpr ⟨rfl, Or.inl rfl⟩

/-- Claim C10: because the query object spells the or-key twice, the
expiry condition overwrites the global-or-targeted condition, so the
per-user query returns every active, non-expired message for every user,
with the targeting filter never applied. -/
theorem C10_targeting_ignored (db : List AdminMsg) (u1 u2 : Nat) (now : Int) :
    getActiveMessagesForUser db u1 now = getActiveMessagesForUser db u2 now
    ∧ (∀ m, m ∈ getActiveMessagesForUser db u1 now ↔
        (m ∈ db ∧ m.isActive = true ∧
          (m.expiresAt = none ∨ ∃ e, m.expiresAt = some e ∧ now < e))) := by
  constructor
  · unfold getActiveMessagesForUser
    rw [jsObject_activeMessages, jsObject_activeMessages]
  · intro m
    unfold getActiveMessagesForUser
    rw [jsObject_activeMessages]
    simp only [List.mem_filter, List.all_cons, List.all_nil, Bool.and_eq_true,
      Bool.and_true]
    cases hm : m.expiresAt with
    | none => simp [hm]
    | some e => simp [hm]

/-- Witness for C10: an active message targeted only at user 55 is
nevertheless returned for the unrelated user 999. -/
theorem C10_targeting_ignored_witness :
    targetedMsg ∈ getActiveMessagesForUser [targetedMsg] 999 0 :=
  ((C10_targeting_ignored [targetedMsg] 999 0 0).2 targetedMsg).mpr
    ⟨by decide, by decide, Or.inl rfl⟩
